import Mathlib

/-!
Verification of the RCKangaroo GPU worker (`GpuKang.cpp` and headers) against
its natural-language specification.  The host-side code is shallowly embedded:
C++ `u32` arithmetic is `Nat` with an explicit `% 2^32` where a product or a
quotient is computed in 32-bit registers; all values relevant to the theorems
below stay far below `2^31`, where signed/unsigned reinterpretation is the
identity, so `int` values are embedded as `Nat` as well.
-/

namespace RCKangaroo

/-- `2^32`, the modulus of C++ `u32` arithmetic. -/
def U32MOD : Nat := 4294967296

/-- Constants from `defs.h` as seen by the host compiler (no `__CUDA_ARCH__`). -/
def STATS_WND_SIZE : Nat := 16

def MAX_DP_CNT : Nat := 1024 * 1024

def JMP_CNT : Nat := 1024

def MD_LEN : Nat := 16

def DPTABLE_MAX_CNT : Nat := 32

def STEP_CNT : Nat := 1500

def GPU_DP_SIZE : Nat := 48

/-- Launch geometry and kangaroo count produced by a planning pass
(`Kparams.BlockCnt/BlockSize/GroupCnt` plus the resulting count); `degraded`
records whether the clamping branch fired (the source prints a warning there). -/
structure PlanResult where
  BlockCnt : Nat
  BlockSize : Nat
  GroupCnt : Nat
  KangCnt : Nat
  degraded : Bool
deriving Repr, DecidableEq

/-- The hard ceiling `MAX_SAFE_KANG_CNT` used by `RCGpuKang::CalcKangCnt`. -/
def MAX_SAFE_KANG_CNT_CALC : Nat := 1000000

/-- The hard ceiling `MAX_SAFE_KANG_CNT` used by `RCGpuKang::Prepare`. -/
def MAX_SAFE_KANG_CNT_PREP : Nat := 800000

/-- The ceiling check of `CalcKangCnt` (GpuKang.cpp 88-101): if the `u32`
product `BlockSize*GroupCnt*BlockCnt` exceeds `MAX_SAFE_KANG_CNT`, recompute
`BlockCnt` as `MAX_SAFE_KANG_CNT / (BlockSize*GroupCnt)` (GroupCnt and
BlockSize untouched) and return the recomputed product. -/
def calcClamp (bs gc bc : Nat) : PlanResult :=
  let totalKangCnt : Nat := bs * gc * bc % U32MOD
  if totalKangCnt > MAX_SAFE_KANG_CNT_CALC then
    let bc2 : Nat := MAX_SAFE_KANG_CNT_CALC / (bs * gc % U32MOD)
    { BlockCnt := bc2, BlockSize := bs, GroupCnt := gc,
      KangCnt := bs * gc * bc2 % U32MOD, degraded := true }
  else
    { BlockCnt := bc, BlockSize := bs, GroupCnt := gc,
      KangCnt := totalKangCnt, degraded := false }

/-- `RCGpuKang::CalcKangCnt` (GpuKang.cpp lines 52-102) as a pure function of
the device capability inputs: the legacy flag `IsOldGpu`, the compute
capability major version and the multiprocessor count `mpCnt`.  Returns the
mutated `Kparams` geometry together with the returned kangaroo count. -/
def CalcKangCnt (IsOldGpu : Bool) (major mpCnt : Nat) : PlanResult :=
  if IsOldGpu then calcClamp 512 64 mpCnt
  else if 9 ≤ major then calcClamp 256 16 (if mpCnt > 80 then 80 else mpCnt)
  else calcClamp 256 32 mpCnt

/-- `Kparams.BlockCnt` chosen by `Prepare` (GpuKang.cpp 161-181). -/
def prepBlockCnt (major mpCnt : Nat) : Nat :=
  if 9 ≤ major then (if mpCnt > 100 then 60 else mpCnt) else mpCnt

/-- `Kparams.BlockSize` chosen by `Prepare`. -/
def prepBlockSize (IsOldGpu : Bool) (major : Nat) : Nat :=
  if 9 ≤ major then 256 else if IsOldGpu then 512 else 256

/-- `Kparams.GroupCnt` chosen by `Prepare` before the ceiling check. -/
def prepGroupCnt (IsOldGpu : Bool) (major : Nat) : Nat :=
  if 9 ≤ major then 12 else if IsOldGpu then 64 else 32

/-- The ceiling check of `Prepare` (GpuKang.cpp 183-199): `KangCnt` is the
`u32` product; if it exceeds `MAX_SAFE_KANG_CNT` it is set to that ceiling and
`GroupCnt` is recomputed as `KangCnt / (BlockSize*BlockCnt)`; only if the
recomputed `GroupCnt` falls below 8 is it pinned at 8 and `BlockCnt`
recomputed as `KangCnt / (BlockSize*8)`. -/
def prepClamp (bs gc bc : Nat) : PlanResult :=
  let kang : Nat := bs * gc * bc % U32MOD
  if kang > MAX_SAFE_KANG_CNT_PREP then
    let gc2 : Nat := MAX_SAFE_KANG_CNT_PREP / (bs * bc % U32MOD)
    if gc2 < 8 then
      { BlockCnt := MAX_SAFE_KANG_CNT_PREP / (bs * 8 % U32MOD), BlockSize := bs,
        GroupCnt := 8, KangCnt := MAX_SAFE_KANG_CNT_PREP, degraded := true }
    else
      { BlockCnt := bc, BlockSize := bs, GroupCnt := gc2,
        KangCnt := MAX_SAFE_KANG_CNT_PREP, degraded := true }
  else
    { BlockCnt := bc, BlockSize := bs, GroupCnt := gc,
      KangCnt := kang, degraded := false }

/-- The planning phase of `RCGpuKang::Prepare` (GpuKang.cpp lines 160-202):
geometry selection followed by the `MAX_SAFE_KANG_CNT` clamp.  `KangCnt` is
the member the rest of `Prepare` uses for buffer sizing. -/
def PreparePlan (IsOldGpu : Bool) (major mpCnt : Nat) : PlanResult :=
  prepClamp (prepBlockSize IsOldGpu major) (prepGroupCnt IsOldGpu major)
    (prepBlockCnt major mpCnt)

/-! ### Herd generation (`RCGpuKang::GenerateRndDistances`, GpuKang.cpp 481-495) -/

/-- Modelled from the spec: `EcInt::RndBits n` belongs to the external
field/point arithmetic library (`Ec.cpp`, not part of this repository's
sources); per the spec's interface description it is "random-bit scalar
generation", producing a scalar of at most `n` bits, i.e. a value in
`[0, 2^n)`.  `r` is the underlying randomness. -/
def RndBits (r n : Nat) : Nat := r % 2 ^ n

/-- `d.data[0] &= 0xFFFFFFFFFFFFFFFE`: clearing bit 0 of the lowest 64-bit
word of a little-endian multiword integer clears bit 0 of its value. -/
def clearLowBit (d : Nat) : Nat := d / 2 * 2

/-- The branch condition of `GenerateRndDistances`: lane `i` is generated as a
TAME kangaroo exactly when `i < KangCnt / 3` (C integer division). -/
def isTameLane (KangCnt i : Nat) : Bool := i < KangCnt / 3

/-- The starting distance `GenerateRndDistances` stores for lane `i`
(`memcpy(RndPnts[i].priv, d.data, 24)` keeps the low 24 bytes = 192 bits):
tame lanes draw `Range-4` random bits, wild lanes draw `Range-1` random bits
and clear the lowest bit.  `rnd i` is the randomness consumed by lane `i`. -/
def GenerateRndDistances (rnd : Nat → Nat) (KangCnt Range : Nat) (i : Nat) : Nat :=
  (if isTameLane KangCnt i then RndBits (rnd i) (Range - 4)
   else clearLowBit (RndBits (rnd i) (Range - 1))) % 2 ^ 192

/-! ### Start seeding (`RCGpuKang::Start`, GpuKang.cpp 497-538) -/

/-- An affine curve point as a pair of field elements (the external library's
`EcPoint`; the 64-byte serialized form is x followed by y). -/
structure EcPointM where
  x : Nat
  y : Nat
deriving Repr, DecidableEq

/-- The abstract elliptic-curve operations `Start` calls; they live in the
external field/point arithmetic library (out of scope per the spec), so the
embedding takes them as parameters.  `negModP` is field negation of one
coordinate (`EcInt::NegModP`). -/
structure EcOps where
  MultiplyG : Nat → EcPointM
  AddPoints : EcPointM → EcPointM → EcPointM
  negModP : Nat → Nat

/-- `PntHalfRange = ec.MultiplyG(1 << (Range-1))` from `Start`. -/
def PntHalfRange (ops : EcOps) (Range : Nat) : EcPointM :=
  ops.MultiplyG (2 ^ (Range - 1))

/-- `NegPntHalfRange`: `PntHalfRange` with its y-coordinate negated mod p. -/
def NegPntHalfRange (ops : EcOps) (Range : Nat) : EcPointM :=
  { x := (PntHalfRange ops Range).x, y := ops.negModP (PntHalfRange ops Range).y }

/-- `PntA = ec.AddPoints(PntToSolve, NegPntHalfRange)`: the target point plus
the negation of `2^(Range-1)·G`, i.e. the target minus `2^(Range-1)·G`. -/
def PntA (ops : EcOps) (PntToSolve : EcPointM) (Range : Nat) : EcPointM :=
  ops.AddPoints PntToSolve (NegPntHalfRange ops Range)

/-- `PntB`: `PntA` with its y-coordinate negated mod p (A's mirror). -/
def PntB (ops : EcOps) (PntToSolve : EcPointM) (Range : Nat) : EcPointM :=
  { x := (PntA ops PntToSolve Range).x
    y := ops.negModP (PntA ops PntToSolve Range).y }

/-- The starting point `Start` writes into `RndPnts[i].x/y` (GpuKang.cpp
529-538): lanes below `KangCnt/3` are zeroed (`memset(..., 0, 64)`), lanes
below `2*KangCnt/3` receive the serialized `PntA`, the rest `PntB`. -/
def startSeed (ops : EcOps) (PntToSolve : EcPointM) (Range KangCnt i : Nat) : EcPointM :=
  if i < KangCnt / 3 then { x := 0, y := 0 }
  else if i < 2 * KangCnt / 3 then PntA ops PntToSolve Range
  else PntB ops PntToSolve Range

/-! ### Speed statistics (`Execute` lines 762-769, `GetStatsSpeed` 790-796) -/

/-- The rolling speed-sample state: the `SpeedStats[STATS_WND_SIZE]` array and
the write index `cur_stats_ind`.  `Prepare` initializes both to zero. -/
structure SpeedState where
  stats : List Nat
  ind : Nat
deriving Repr, DecidableEq

/-- `SpeedStats[cur_stats_ind] = cur_speed; cur_stats_ind = (cur_stats_ind+1) %
STATS_WND_SIZE;` — one iteration's sample recording in `Execute`. -/
def recordSample (st : SpeedState) (s : Nat) : SpeedState :=
  { stats := st.stats.set st.ind s, ind := (st.ind + 1) % STATS_WND_SIZE }

/-- Recording a whole run of per-iteration samples, oldest first. -/
def recordAll (st : SpeedState) (samples : List Nat) : SpeedState :=
  samples.foldl recordSample st

/-- The zeroed state `Prepare` leaves behind (`memset(SpeedStats, 0, ...)`,
`cur_stats_ind = 0`). -/
def initSpeedState : SpeedState :=
  { stats := List.replicate STATS_WND_SIZE 0, ind := 0 }

/-- `RCGpuKang::GetStatsSpeed`: sum of the sixteen slots, divided by
`STATS_WND_SIZE` with truncating integer division. -/
def GetStatsSpeed (st : SpeedState) : Nat := st.stats.sum / STATS_WND_SIZE

/-! ### DP harvesting (`Execute` lines 699-739) -/

/-- Outcome of the distinguished-point harvesting step of one batch. -/
structure HarvestResult where
  processed : Nat
  overflowWarned : Bool
  fatal : Bool
deriving Repr, DecidableEq

/-- The host-side handling of the hit count read back from `DPs_out`
(GpuKang.cpp 714-739): counts at or above `MAX_DP_CNT` are clamped to
`MAX_DP_CNT` with an overflow warning printed; if the (clamped) count is
nonzero, exactly that many `GPU_DP_SIZE`-byte records are copied to the host
and passed to `AddPointsToList`; a failing copy (`copyErr`) breaks the loop,
an overflow alone never does. -/
def harvestBatch (rawCnt : Nat) (copyErr : Bool) : HarvestResult :=
  let warned : Bool := rawCnt ≥ MAX_DP_CNT
  let cnt : Nat := if rawCnt ≥ MAX_DP_CNT then MAX_DP_CNT else rawCnt
  if cnt ≠ 0 ∧ copyErr then
    { processed := 0, overflowWarned := warned, fatal := true }
  else
    { processed := cnt, overflowWarned := warned, fatal := false }

/-! ### Allocation and release (`Prepare` 216-363, `Release` 452-474) -/

/-- The device buffers `Prepare` acquires with `cudaMalloc`. -/
inductive GpuBuf
  | L2 | DPsOut | Kangs | Jumps1 | Jumps2 | Jumps3 | JumpsList
  | DPTable | L1S2 | LastPnts | LoopTable | DbgBuf | LoopedKangs
deriving Repr, DecidableEq

/-- The order in which `Prepare` acquires the device buffers (GpuKang.cpp
216-356); `L2` exists only in non-legacy mode (`!IsOldGpu`). -/
def allocOrder (IsOldGpu : Bool) : List GpuBuf :=
  (if IsOldGpu then [] else [GpuBuf.L2]) ++
  [GpuBuf.DPsOut, GpuBuf.Kangs, GpuBuf.Jumps1, GpuBuf.Jumps2, GpuBuf.Jumps3,
   GpuBuf.JumpsList, GpuBuf.DPTable, GpuBuf.L1S2, GpuBuf.LastPnts,
   GpuBuf.LoopTable, GpuBuf.DbgBuf, GpuBuf.LoopedKangs]

/-- The order in which `RCGpuKang::Release` calls `cudaFree` on the device
buffers (GpuKang.cpp 456-469). -/
def releaseOrder (IsOldGpu : Bool) : List GpuBuf :=
  [GpuBuf.LoopedKangs, GpuBuf.DbgBuf, GpuBuf.LoopTable, GpuBuf.LastPnts,
   GpuBuf.L1S2, GpuBuf.DPTable, GpuBuf.JumpsList, GpuBuf.Jumps3, GpuBuf.Jumps2,
   GpuBuf.Jumps1, GpuBuf.Kangs, GpuBuf.DPsOut] ++
  (if IsOldGpu then [] else [GpuBuf.L2])

/-- Walk the allocation list against a mock allocator `ok`, accumulating the
acquired buffers; the first failure stops the walk — mirroring the immediate
`return false` in `Prepare`, which frees none of the previously acquired
device buffers. -/
def prepareAllocGo (ok : GpuBuf → Bool) : List GpuBuf → List GpuBuf → Bool × List GpuBuf
  | [], acc => (true, acc)
  | b :: rest, acc => if ok b then prepareAllocGo ok rest (acc ++ [b]) else (false, acc)

/-- Running `Prepare`'s allocation sequence against a mock allocator `ok`:
buffers are acquired in `allocOrder`; a failing `cudaMalloc` makes `Prepare`
print and `return false` immediately.  Returns the success flag and the list
of buffers still held when `Prepare` returns. -/
def prepareAllocRun (ok : GpuBuf → Bool) (IsOldGpu : Bool) : Bool × List GpuBuf :=
  prepareAllocGo ok (allocOrder IsOldGpu) []

/-! ### Worker thread control flow (`RCGpuKang::Execute`, GpuKang.cpp 628-788) -/

/-- Observable outcome of one `Execute` run. -/
structure ExecRun where
  releaseCalled : Bool
  errors : Nat
deriving Repr, DecidableEq

/-- The `while (!StopFlag)` loop: each entry of `iters` is one iteration, where
`true` means every device call of that iteration succeeded; a failing call
increments `gTotalErrors` and breaks the loop; exhausting the list is the stop
flag being observed.  Returns the number of error increments. -/
def execLoop : List Bool → Nat
  | [] => 0
  | ok :: rest => if ok then execLoop rest else 1

/-- `RCGpuKang::Execute`: a failing `cudaSetDevice` or a failing `Start()`
returns immediately after `gTotalErrors++` — without calling `Release` — while
every exit of the iteration loop (stop flag or fatal iteration error) falls
through to the `Release()` call at the end of the function. -/
def ExecuteRun (setDeviceOk startOk : Bool) (iters : List Bool) : ExecRun :=
  if setDeviceOk = false then { releaseCalled := false, errors := 1 }
  else if startOk = false then { releaseCalled := false, errors := 1 }
  else { releaseCalled := true, errors := execLoop iters }

/-- A concrete instance of the external curve-arithmetic interface, used only
to instantiate witness theorems. -/
def sampleEcOps : EcOps :=
  { MultiplyG := fun n => ⟨n % 97, (n + 1) % 97⟩
    AddPoints := fun p q => ⟨(p.x + q.x) % 97, (p.y + q.y) % 97⟩
    negModP := fun y => (97 - y % 97) % 97 }

/-! ## Helper lemmas about the planner -/

theorem prepClamp_eq_of_le (bs gc bc : Nat) (h1 : bs * gc * bc ≤ MAX_SAFE_KANG_CNT_PREP)
    (h2 : bs * gc * bc < U32MOD) :
    prepClamp bs gc bc = ⟨bc, bs, gc, bs * gc * bc, false⟩ := by
  simp only [prepClamp, MAX_SAFE_KANG_CNT_PREP, Nat.mod_eq_of_lt h2] at *
  rw [if_neg (by omega)]

theorem calcClamp_eq_of_le (bs gc bc : Nat) (h1 : bs * gc * bc ≤ MAX_SAFE_KANG_CNT_CALC)
    (h2 : bs * gc * bc < U32MOD) :
    calcClamp bs gc bc = ⟨bc, bs, gc, bs * gc * bc, false⟩ := by
  simp only [calcClamp, MAX_SAFE_KANG_CNT_CALC, Nat.mod_eq_of_lt h2] at *
  rw [if_neg (by omega)]

theorem prepClamp_sound (bs gc bc : Nat) (h2 : bs * gc * bc < U32MOD)
    (h3 : bs * bc < U32MOD) (h4 : bs * 8 < U32MOD) :
    (prepClamp bs gc bc).BlockSize * (prepClamp bs gc bc).GroupCnt *
        (prepClamp bs gc bc).BlockCnt ≤ (prepClamp bs gc bc).KangCnt ∧
    (prepClamp bs gc bc).KangCnt ≤ MAX_SAFE_KANG_CNT_PREP ∧
    ((prepClamp bs gc bc).degraded = false →
      (prepClamp bs gc bc).KangCnt = (prepClamp bs gc bc).BlockSize *
        (prepClamp bs gc bc).GroupCnt * (prepClamp bs gc bc).BlockCnt) := by
  simp only [prepClamp, MAX_SAFE_KANG_CNT_PREP, Nat.mod_eq_of_lt h2, Nat.mod_eq_of_lt h3,
    Nat.mod_eq_of_lt h4]
  split_ifs with hK hg
  · refine ⟨?_, le_refl _, by simp⟩
    calc bs * 8 * (800000 / (bs * 8)) = 800000 / (bs * 8) * (bs * 8) := by ring
      _ ≤ 800000 := Nat.div_mul_le_self _ _
  · refine ⟨?_, le_refl _, by simp⟩
    calc bs * (800000 / (bs * bc)) * bc = 800000 / (bs * bc) * (bs * bc) := by ring
      _ ≤ 800000 := Nat.div_mul_le_self _ _
  · exact ⟨le_refl _, not_lt.mp hK, fun _ => rfl⟩

theorem prepClamp_clamp_spec (bs gc bc : Nat) (h2 : bs * gc * bc < U32MOD)
    (h3 : bs * bc < U32MOD) (h4 : bs * 8 < U32MOD) (hgc8 : 8 < gc)
    (hgt : bs * gc * bc > MAX_SAFE_KANG_CNT_PREP) :
    (prepClamp bs gc bc).degraded = true ∧
    (prepClamp bs gc bc).KangCnt = MAX_SAFE_KANG_CNT_PREP ∧
    (prepClamp bs gc bc).BlockSize = bs ∧
    (prepClamp bs gc bc).GroupCnt < gc ∧
    (8 ≤ MAX_SAFE_KANG_CNT_PREP / (bs * bc) →
      (prepClamp bs gc bc).GroupCnt = MAX_SAFE_KANG_CNT_PREP / (bs * bc) ∧
      (prepClamp bs gc bc).BlockCnt = bc) ∧
    (MAX_SAFE_KANG_CNT_PREP / (bs * bc) < 8 →
      (prepClamp bs gc bc).GroupCnt = 8 ∧
      (prepClamp bs gc bc).BlockCnt = MAX_SAFE_KANG_CNT_PREP / (bs * 8)) ∧
    (prepClamp bs gc bc).BlockSize * (prepClamp bs gc bc).GroupCnt *
        (prepClamp bs gc bc).BlockCnt ≤ MAX_SAFE_KANG_CNT_PREP := by
  have hgt' : bs * gc * bc > 800000 := hgt
  have hbsbc : 0 < bs * bc := by
    rcases Nat.eq_zero_or_pos (bs * bc) with h | h
    · exfalso
      have hz : bs * gc * bc = gc * (bs * bc) := by ring
      rw [h, Nat.mul_zero] at hz
      omega
    · exact h
  have hglt : 800000 / (bs * bc) < gc := by
    by_contra hle
    push_neg at hle
    have := (Nat.le_div_iff_mul_le hbsbc).mp hle
    have hz : gc * (bs * bc) = bs * gc * bc := by ring
    omega
  simp only [prepClamp, MAX_SAFE_KANG_CNT_PREP, Nat.mod_eq_of_lt h2, Nat.mod_eq_of_lt h3,
    Nat.mod_eq_of_lt h4]
  rw [if_pos hgt']
  split_ifs with hg
  · refine ⟨rfl, rfl, rfl, hgc8, fun hcon => absurd hcon (by omega), fun _ => ⟨rfl, rfl⟩, ?_⟩
    calc bs * 8 * (800000 / (bs * 8)) = 800000 / (bs * 8) * (bs * 8) := by ring
      _ ≤ 800000 := Nat.div_mul_le_self _ _
  · refine ⟨rfl, rfl, rfl, hglt, fun _ => ⟨rfl, rfl⟩, fun hcon => absurd hcon (by omega), ?_⟩
    calc bs * (800000 / (bs * bc)) * bc = 800000 / (bs * bc) * (bs * bc) := by ring
      _ ≤ 800000 := Nat.div_mul_le_self _ _

theorem prepBlockSize_le (IsOldGpu : Bool) (major : Nat) : prepBlockSize IsOldGpu major ≤ 512 := by
  unfold prepBlockSize; split_ifs <;> omega

theorem prepGroupCnt_le (IsOldGpu : Bool) (major : Nat) : prepGroupCnt IsOldGpu major ≤ 64 := by
  unfold prepGroupCnt; split_ifs <;> omega

theorem prepGroupCnt_gt8 (IsOldGpu : Bool) (major : Nat) : 8 < prepGroupCnt IsOldGpu major := by
  unfold prepGroupCnt; split_ifs <;> omega

theorem prepBlockCnt_le (major mpCnt : Nat) (h : mpCnt ≤ 4096) :
    prepBlockCnt major mpCnt ≤ 4096 := by
  unfold prepBlockCnt; split_ifs <;> omega

/-! ## Claim theorems -/

/-- C1 counterexample: on a legacy device with 25 multiprocessors the naive
product is 512·64·25 = 819200 > 800000, so `Prepare` clamps `KangCnt` to
800000 and recomputes `GroupCnt = 62`; the invariant
`KangCnt == BlockSize*GroupCnt*BlockCnt` claimed by the spec then fails,
because 512·62·25 = 793600 ≠ 800000. -/
theorem C1_counterexample :
    (PreparePlan true 8 25).KangCnt ≠
      (PreparePlan true 8 25).BlockSize * (PreparePlan true 8 25).GroupCnt *
        (PreparePlan true 8 25).BlockCnt := by decide

/-- C1 (amended): after the planning phase of `Prepare`, for every device
configuration (any legacy flag, any compute major version, `mpCnt ≤ 4096`),
`BlockSize*GroupCnt*BlockCnt ≤ KangCnt ≤ 800000` — the hard ceiling is always
respected and an oversized configuration is reduced to fit, never rejected —
and whenever the clamp did not fire, `KangCnt` equals
`BlockSize*GroupCnt*BlockCnt` exactly; the planning phase is total (it never
fails). -/
theorem C1_prepare_plan_bounded (IsOldGpu : Bool) (major mpCnt : Nat) (hmp : mpCnt ≤ 4096) :
    (PreparePlan IsOldGpu major mpCnt).BlockSize * (PreparePlan IsOldGpu major mpCnt).GroupCnt *
        (PreparePlan IsOldGpu major mpCnt).BlockCnt ≤ (PreparePlan IsOldGpu major mpCnt).KangCnt ∧
    (PreparePlan IsOldGpu major mpCnt).KangCnt ≤ MAX_SAFE_KANG_CNT_PREP ∧
    ((PreparePlan IsOldGpu major mpCnt).degraded = false →
      (PreparePlan IsOldGpu major mpCnt).KangCnt =
        (PreparePlan IsOldGpu major mpCnt).BlockSize *
          (PreparePlan IsOldGpu major mpCnt).GroupCnt *
          (PreparePlan IsOldGpu major mpCnt).BlockCnt) := by
  have hbs := prepBlockSize_le IsOldGpu major
  have hgc := prepGroupCnt_le IsOldGpu major
  have hbc := prepBlockCnt_le major mpCnt hmp
  unfold PreparePlan
  refine prepClamp_sound _ _ _ ?_ ?_ ?_
  · unfold U32MOD
    calc prepBlockSize IsOldGpu major * prepGroupCnt IsOldGpu major * prepBlockCnt major mpCnt
        ≤ 512 * 64 * 4096 := by
          exact Nat.mul_le_mul (Nat.mul_le_mul hbs hgc) hbc
      _ < 4294967296 := by omega
  · unfold U32MOD
    calc prepBlockSize IsOldGpu major * prepBlockCnt major mpCnt ≤ 512 * 4096 :=
        Nat.mul_le_mul hbs hbc
      _ < 4294967296 := by omega
  · unfold U32MOD
    calc prepBlockSize IsOldGpu major * 8 ≤ 512 * 8 := Nat.mul_le_mul hbs (le_refl 8)
      _ < 4294967296 := by omega

/-- C1 witness: the amended theorem applied to the legacy 25-SM device. -/
theorem C1_witness :
    (PreparePlan true 8 25).BlockSize * (PreparePlan true 8 25).GroupCnt *
        (PreparePlan true 8 25).BlockCnt ≤ (PreparePlan true 8 25).KangCnt ∧
    (PreparePlan true 8 25).KangCnt ≤ MAX_SAFE_KANG_CNT_PREP ∧
    ((PreparePlan true 8 25).degraded = false →
      (PreparePlan true 8 25).KangCnt =
        (PreparePlan true 8 25).BlockSize * (PreparePlan true 8 25).GroupCnt *
          (PreparePlan true 8 25).BlockCnt) :=
  C1_prepare_plan_bounded true 8 25 (by decide)

/-- C2 counterexample: the other planning path, `CalcKangCnt`, violates the
claim: on a legacy device with 31 multiprocessors the naive product
512·64·31 = 1015808 exceeds its bound 1000000, yet it leaves `GroupCnt`
unchanged at 64 and reduces `BlockCnt` from 31 to 30 — it does not reduce
`GroupCnt` first. -/
theorem C2_counterexample :
    512 * 64 * 31 > MAX_SAFE_KANG_CNT_CALC ∧
    (CalcKangCnt true 8 31).GroupCnt = 64 ∧
    (CalcKangCnt true 8 31).BlockCnt = 30 := by decide

/-- C2 (amended): the `Prepare` planning path behaves as claimed: whenever the
naive product exceeds its bound 800000, it reports the degradation, sets
`KangCnt` to the bound, strictly reduces `GroupCnt` first (to
`800000 / (BlockSize*BlockCnt)`, keeping `BlockCnt`), and only if that
quotient falls below 8 pins `GroupCnt` at 8 and reduces `BlockCnt` (to
`800000 / (BlockSize*8)`), after which the product fits within the bound.
`CalcKangCnt`, however, reduces `BlockCnt` directly (see the counterexample). -/
theorem C2_prepare_reduces_groupcnt_first (IsOldGpu : Bool) (major mpCnt : Nat)
    (hmp : mpCnt ≤ 4096)
    (hgt : prepBlockSize IsOldGpu major * prepGroupCnt IsOldGpu major *
        prepBlockCnt major mpCnt > MAX_SAFE_KANG_CNT_PREP) :
    (PreparePlan IsOldGpu major mpCnt).degraded = true ∧
    (PreparePlan IsOldGpu major mpCnt).KangCnt = MAX_SAFE_KANG_CNT_PREP ∧
    (PreparePlan IsOldGpu major mpCnt).BlockSize = prepBlockSize IsOldGpu major ∧
    (PreparePlan IsOldGpu major mpCnt).GroupCnt < prepGroupCnt IsOldGpu major ∧
    (8 ≤ MAX_SAFE_KANG_CNT_PREP / (prepBlockSize IsOldGpu major * prepBlockCnt major mpCnt) →
      (PreparePlan IsOldGpu major mpCnt).GroupCnt =
        MAX_SAFE_KANG_CNT_PREP / (prepBlockSize IsOldGpu major * prepBlockCnt major mpCnt) ∧
      (PreparePlan IsOldGpu major mpCnt).BlockCnt = prepBlockCnt major mpCnt) ∧
    (MAX_SAFE_KANG_CNT_PREP / (prepBlockSize IsOldGpu major * prepBlockCnt major mpCnt) < 8 →
      (PreparePlan IsOldGpu major mpCnt).GroupCnt = 8 ∧
      (PreparePlan IsOldGpu major mpCnt).BlockCnt =
        MAX_SAFE_KANG_CNT_PREP / (prepBlockSize IsOldGpu major * 8)) ∧
    (PreparePlan IsOldGpu major mpCnt).BlockSize * (PreparePlan IsOldGpu major mpCnt).GroupCnt *
        (PreparePlan IsOldGpu major mpCnt).BlockCnt ≤ MAX_SAFE_KANG_CNT_PREP := by
  have hbs := prepBlockSize_le IsOldGpu major
  have hgc := prepGroupCnt_le IsOldGpu major
  have hbc := prepBlockCnt_le major mpCnt hmp
  unfold PreparePlan
  refine prepClamp_clamp_spec _ _ _ ?_ ?_ ?_ (prepGroupCnt_gt8 IsOldGpu major) hgt
  · unfold U32MOD
    calc prepBlockSize IsOldGpu major * prepGroupCnt IsOldGpu major * prepBlockCnt major mpCnt
        ≤ 512 * 64 * 4096 := Nat.mul_le_mul (Nat.mul_le_mul hbs hgc) hbc
      _ < 4294967296 := by omega
  · unfold U32MOD
    calc prepBlockSize IsOldGpu major * prepBlockCnt major mpCnt ≤ 512 * 4096 :=
        Nat.mul_le_mul hbs hbc
      _ < 4294967296 := by omega
  · unfold U32MOD
    calc prepBlockSize IsOldGpu major * 8 ≤ 512 * 8 := Nat.mul_le_mul hbs (le_refl 8)
      _ < 4294967296 := by omega

/-- C2 witness: the amended theorem applied to the legacy 25-SM device, whose
naive product 512·64·25 = 819200 exceeds the bound. -/
theorem C2_witness :
    (PreparePlan true 8 25).degraded = true ∧
    (PreparePlan true 8 25).KangCnt = MAX_SAFE_KANG_CNT_PREP ∧
    (PreparePlan true 8 25).BlockSize = prepBlockSize true 8 ∧
    (PreparePlan true 8 25).GroupCnt < prepGroupCnt true 8 ∧
    (8 ≤ MAX_SAFE_KANG_CNT_PREP / (prepBlockSize true 8 * prepBlockCnt 8 25) →
      (PreparePlan true 8 25).GroupCnt =
        MAX_SAFE_KANG_CNT_PREP / (prepBlockSize true 8 * prepBlockCnt 8 25) ∧
      (PreparePlan true 8 25).BlockCnt = prepBlockCnt 8 25) ∧
    (MAX_SAFE_KANG_CNT_PREP / (prepBlockSize true 8 * prepBlockCnt 8 25) < 8 →
      (PreparePlan true 8 25).GroupCnt = 8 ∧
      (PreparePlan true 8 25).BlockCnt = MAX_SAFE_KANG_CNT_PREP / (prepBlockSize true 8 * 8)) ∧
    (PreparePlan true 8 25).BlockSize * (PreparePlan true 8 25).GroupCnt *
        (PreparePlan true 8 25).BlockCnt ≤ MAX_SAFE_KANG_CNT_PREP :=
  C2_prepare_reduces_groupcnt_first true 8 25 (by decide) (by decide)

/-- Geometry helper: `prepBlockSize false major = 256` for every major. -/
theorem prepBlockSize_false (major : Nat) : prepBlockSize false major = 256 := by
  unfold prepBlockSize; split_ifs <;> simp_all

/-- C3 counterexample: for the current-generation (non-legacy, major < 9)
profile with 98 multiprocessors — within the claimed clamp-free region
`mpCnt ≤ 100` — the naive product 8192·98 = 802816 exceeds `Prepare`'s
ceiling 800000, so clamping does occur and `KangCnt ≠ 8192·mpCnt`. -/
theorem C3_counterexample :
    (PreparePlan false 8 98).degraded = true ∧
    (PreparePlan false 8 98).KangCnt ≠ 8192 * 98 := by decide

/-- C3 (amended): for a current-generation (non-legacy, compute major < 9)
device profile, both planning paths yield `BlockSize = 256`, `GroupCnt = 32`,
`BlockCnt = mpCnt` and `KangCnt = 8192·mpCnt` with no clamping — but only for
`mpCnt ≤ 97`; at `mpCnt ∈ {98,99,100}` `Prepare` clamps (see the
counterexample).  The planner does not read `Range` or `DP`, so the scenario's
`Range = 40`, `DP = 16` are irrelevant to the geometry. -/
theorem C3_current_gen_plan (major mpCnt : Nat) (hmaj : major < 9) (hmp : mpCnt ≤ 97) :
    PreparePlan false major mpCnt = ⟨mpCnt, 256, 32, 8192 * mpCnt, false⟩ ∧
    CalcKangCnt false major mpCnt = ⟨mpCnt, 256, 32, 8192 * mpCnt, false⟩ := by
  have h9 : ¬ 9 ≤ major := by omega
  have hbs : prepBlockSize false major = 256 := prepBlockSize_false major
  have hgc : prepGroupCnt false major = 32 := by
    unfold prepGroupCnt; rw [if_neg h9]; rfl
  have hbc : prepBlockCnt major mpCnt = mpCnt := by
    unfold prepBlockCnt; rw [if_neg h9]
  have h1 : 256 * 32 * mpCnt ≤ MAX_SAFE_KANG_CNT_PREP := by
    unfold MAX_SAFE_KANG_CNT_PREP; omega
  have h1c : 256 * 32 * mpCnt ≤ MAX_SAFE_KANG_CNT_CALC := by
    unfold MAX_SAFE_KANG_CNT_CALC; omega
  have h2 : 256 * 32 * mpCnt < U32MOD := by unfold U32MOD; omega
  constructor
  · unfold PreparePlan
    rw [hbs, hgc, hbc, prepClamp_eq_of_le 256 32 mpCnt h1 h2]
  · unfold CalcKangCnt
    rw [if_neg (by simp), if_neg h9, calcClamp_eq_of_le 256 32 mpCnt h1c h2]

/-- C3 witness: the amended theorem at `mpCnt = 68` (a typical SM count). -/
theorem C3_witness :
    PreparePlan false 8 68 = ⟨68, 256, 32, 8192 * 68, false⟩ ∧
    CalcKangCnt false 8 68 = ⟨68, 256, 32, 8192 * 68, false⟩ :=
  C3_current_gen_plan 8 68 (by decide) (by decide)

/-- C10 counterexample: the two planning paths disagree.  On a compute-major-9
device with one multiprocessor, `CalcKangCnt` plans `GroupCnt = 16` and
returns 4096 kangaroos while `Prepare` plans `GroupCnt = 12` and 3072; on a
legacy 25-SM device their hard ceilings differ (1000000 vs 800000), so
`CalcKangCnt` returns 819200 while `Prepare` computes 800000. -/
theorem C10_counterexample :
    (CalcKangCnt false 9 1).KangCnt ≠ (PreparePlan false 9 1).KangCnt ∧
    (CalcKangCnt false 9 1).GroupCnt ≠ (PreparePlan false 9 1).GroupCnt ∧
    (CalcKangCnt true 8 25).KangCnt ≠ (PreparePlan true 8 25).KangCnt := by decide

/-- C10 (amended): the two planning paths agree — same `BlockCnt`,
`BlockSize`, `GroupCnt` and `KangCnt` — exactly on devices with compute major
version below 9 whose naive product (`512·64·mpCnt` legacy, `256·32·mpCnt`
otherwise) is within `Prepare`'s ceiling 800000; for compute major ≥ 9 the
geometries differ and above 800000 the ceilings differ (counterexample). -/
theorem C10_planners_agree (IsOldGpu : Bool) (major mpCnt : Nat) (hmaj : major < 9)
    (hfit : (if IsOldGpu then 32768 else 8192) * mpCnt ≤ MAX_SAFE_KANG_CNT_PREP) :
    CalcKangCnt IsOldGpu major mpCnt = PreparePlan IsOldGpu major mpCnt := by
  have h9 : ¬ 9 ≤ major := by omega
  cases IsOldGpu
  · have hfit' : 8192 * mpCnt ≤ 800000 := by
      simpa [MAX_SAFE_KANG_CNT_PREP] using hfit
    have h1 : 256 * 32 * mpCnt ≤ MAX_SAFE_KANG_CNT_PREP := by
      unfold MAX_SAFE_KANG_CNT_PREP; omega
    have h1c : 256 * 32 * mpCnt ≤ MAX_SAFE_KANG_CNT_CALC := by
      unfold MAX_SAFE_KANG_CNT_CALC; omega
    have h2 : 256 * 32 * mpCnt < U32MOD := by unfold U32MOD; omega
    unfold CalcKangCnt PreparePlan
    rw [if_neg (by simp), if_neg h9, prepBlockSize_false, calcClamp_eq_of_le 256 32 mpCnt h1c h2]
    have hgc : prepGroupCnt false major = 32 := by
      unfold prepGroupCnt; rw [if_neg h9]; rfl
    have hbc : prepBlockCnt major mpCnt = mpCnt := by
      unfold prepBlockCnt; rw [if_neg h9]
    rw [hgc, hbc, prepClamp_eq_of_le 256 32 mpCnt h1 h2]
  · have hfit' : 32768 * mpCnt ≤ 800000 := by
      simpa [MAX_SAFE_KANG_CNT_PREP] using hfit
    have h1 : 512 * 64 * mpCnt ≤ MAX_SAFE_KANG_CNT_PREP := by
      unfold MAX_SAFE_KANG_CNT_PREP; omega
    have h1c : 512 * 64 * mpCnt ≤ MAX_SAFE_KANG_CNT_CALC := by
      unfold MAX_SAFE_KANG_CNT_CALC; omega
    have h2 : 512 * 64 * mpCnt < U32MOD := by unfold U32MOD; omega
    unfold CalcKangCnt PreparePlan
    rw [if_pos rfl, calcClamp_eq_of_le 512 64 mpCnt h1c h2]
    have hbs : prepBlockSize true major = 512 := by
      unfold prepBlockSize; rw [if_neg h9]; rfl
    have hgc : prepGroupCnt true major = 64 := by
      unfold prepGroupCnt; rw [if_neg h9]; rfl
    have hbc : prepBlockCnt major mpCnt = mpCnt := by
      unfold prepBlockCnt; rw [if_neg h9]
    rw [hbs, hgc, hbc, prepClamp_eq_of_le 512 64 mpCnt h1 h2]

/-- C10 witness: both paths produce the identical plan on a legacy device with
24 multiprocessors (product 786432 ≤ 800000). -/
theorem C10_witness : CalcKangCnt true 8 24 = PreparePlan true 8 24 :=
  C10_planners_agree true 8 24 (by decide) (by decide)

/-- C4: herd generation marks exactly the lanes `i < ⌊KangCnt/3⌋` as Tame and
draws their starting distance in `[0, 2^(Range-4))`; every remaining (Wild)
lane gets a starting distance in `[0, 2^(Range-1))` whose lowest bit is
cleared, hence always even (both bounds also survive the 24-byte store). -/
theorem C4_herd_distances (rnd : Nat → Nat) (KangCnt Range i : Nat) :
    (isTameLane KangCnt i = true ↔ i < KangCnt / 3) ∧
    (i < KangCnt / 3 → GenerateRndDistances rnd KangCnt Range i < 2 ^ (Range - 4)) ∧
    (KangCnt / 3 ≤ i →
      GenerateRndDistances rnd KangCnt Range i < 2 ^ (Range - 1) ∧
      2 ∣ GenerateRndDistances rnd KangCnt Range i) := by
  refine ⟨by simp [isTameLane], ?_, ?_⟩
  · intro h
    unfold GenerateRndDistances
    rw [if_pos (by simp [isTameLane, h])]
    calc RndBits (rnd i) (Range - 4) % 2 ^ 192
        ≤ RndBits (rnd i) (Range - 4) := Nat.mod_le _ _
      _ < 2 ^ (Range - 4) := by unfold RndBits; exact Nat.mod_lt _ (by positivity)
  · intro h
    unfold GenerateRndDistances
    rw [if_neg (by simp [isTameLane]; omega)]
    constructor
    · calc clearLowBit (RndBits (rnd i) (Range - 1)) % 2 ^ 192
          ≤ clearLowBit (RndBits (rnd i) (Range - 1)) := Nat.mod_le _ _
        _ ≤ RndBits (rnd i) (Range - 1) := by unfold clearLowBit; omega
        _ < 2 ^ (Range - 1) := by unfold RndBits; exact Nat.mod_lt _ (by positivity)
    · have h2 : 2 ∣ clearLowBit (RndBits (rnd i) (Range - 1)) :=
        ⟨RndBits (rnd i) (Range - 1) / 2, by unfold clearLowBit; ring⟩
      have h192 : (2 : Nat) ∣ 2 ^ 192 := dvd_pow_self 2 (by omega)
      exact (Nat.dvd_mod_iff h192).mpr h2

/-- C4 witness: the theorem at a concrete herd (`KangCnt = 9`, `Range = 40`,
lane 4, fixed randomness). -/
theorem C4_witness :
    (isTameLane 9 4 = true ↔ 4 < 9 / 3) ∧
    (4 < 9 / 3 → GenerateRndDistances (fun _ => 123456789) 9 40 4 < 2 ^ (40 - 4)) ∧
    (9 / 3 ≤ 4 →
      GenerateRndDistances (fun _ => 123456789) 9 40 4 < 2 ^ (40 - 1) ∧
      2 ∣ GenerateRndDistances (fun _ => 123456789) 9 40 4) :=
  C4_herd_distances (fun _ => 123456789) 9 40 4

/-- C5: at `Start`, lanes below `⌊KangCnt/3⌋` (Tame) are seeded with the
zeroed starting point, lanes below `⌊2·KangCnt/3⌋` (Wild1) with
`A = AddPoints(target, negate-y(MultiplyG(2^(Range-1))))` — the target point
minus `2^(Range-1)·G` — and the remaining lanes (Wild2) with A's mirror `B`,
obtained by negating A's y-coordinate mod p. -/
theorem C5_start_seeds (ops : EcOps) (Pnt : EcPointM) (Range KangCnt i : Nat) :
    PntA ops Pnt Range = ops.AddPoints Pnt
      ⟨(ops.MultiplyG (2 ^ (Range - 1))).x, ops.negModP (ops.MultiplyG (2 ^ (Range - 1))).y⟩ ∧
    PntB ops Pnt Range = ⟨(PntA ops Pnt Range).x, ops.negModP (PntA ops Pnt Range).y⟩ ∧
    (i < KangCnt / 3 → startSeed ops Pnt Range KangCnt i = ⟨0, 0⟩) ∧
    (KangCnt / 3 ≤ i → i < 2 * KangCnt / 3 →
      startSeed ops Pnt Range KangCnt i = PntA ops Pnt Range) ∧
    (2 * KangCnt / 3 ≤ i → startSeed ops Pnt Range KangCnt i = PntB ops Pnt Range) := by
  refine ⟨rfl, rfl, ?_, ?_, ?_⟩
  · intro h
    unfold startSeed
    rw [if_pos h]
  · intro h1 h2
    unfold startSeed
    rw [if_neg (by omega), if_pos h2]
  · intro h
    unfold startSeed
    rw [if_neg (by omega), if_neg (by omega)]

/-- C5 witness: the theorem at a concrete instantiation of the external
arithmetic (`KangCnt = 9`, Wild1 lane 4). -/
theorem C5_witness :
    PntA sampleEcOps ⟨3, 5⟩ 40 = sampleEcOps.AddPoints ⟨3, 5⟩
      ⟨(sampleEcOps.MultiplyG (2 ^ (40 - 1))).x,
        sampleEcOps.negModP (sampleEcOps.MultiplyG (2 ^ (40 - 1))).y⟩ ∧
    PntB sampleEcOps ⟨3, 5⟩ 40 =
      ⟨(PntA sampleEcOps ⟨3, 5⟩ 40).x, sampleEcOps.negModP (PntA sampleEcOps ⟨3, 5⟩ 40).y⟩ ∧
    (4 < 9 / 3 → startSeed sampleEcOps ⟨3, 5⟩ 40 9 4 = ⟨0, 0⟩) ∧
    (9 / 3 ≤ 4 → 4 < 2 * 9 / 3 →
      startSeed sampleEcOps ⟨3, 5⟩ 40 9 4 = PntA sampleEcOps ⟨3, 5⟩ 40) ∧
    (2 * 9 / 3 ≤ 4 → startSeed sampleEcOps ⟨3, 5⟩ 40 9 4 = PntB sampleEcOps ⟨3, 5⟩ 40) :=
  C5_start_seeds sampleEcOps ⟨3, 5⟩ 40 9 4

/-- C7: in every batch iteration the host processes at most `MAX_DP_CNT`
distinguished-point records: the count read back is clamped to `MAX_DP_CNT`,
the overflow warning is printed exactly when the raw count reached the clamp
threshold (`rawCnt ≥ MAX_DP_CNT`), exactly the clamped count of records is
copied and forwarded to the resolver, and — absent a copy error — the
iteration never turns fatal, so an overflow alone lets the search continue. -/
theorem C7_dp_count_clamped (rawCnt : Nat) :
    (harvestBatch rawCnt false).processed = min rawCnt MAX_DP_CNT ∧
    (harvestBatch rawCnt false).processed ≤ MAX_DP_CNT ∧
    ((harvestBatch rawCnt false).overflowWarned = true ↔ MAX_DP_CNT ≤ rawCnt) ∧
    (harvestBatch rawCnt false).fatal = false := by
  unfold harvestBatch
  by_cases h : MAX_DP_CNT ≤ rawCnt
  · simp [ge_iff_le, h, Nat.min_def]
  · have h' : rawCnt ≤ MAX_DP_CNT := le_of_not_le h
    simp [ge_iff_le, h, Nat.min_def, h']

/-- C7 witness: a batch whose device counter reports 2097152 hits is clamped
to `MAX_DP_CNT = 1048576`, warns, and does not stop the loop. -/
theorem C7_witness :
    (harvestBatch 2097152 false).processed = min 2097152 MAX_DP_CNT ∧
    (harvestBatch 2097152 false).processed ≤ MAX_DP_CNT ∧
    ((harvestBatch 2097152 false).overflowWarned = true ↔ MAX_DP_CNT ≤ 2097152) ∧
    (harvestBatch 2097152 false).fatal = false :=
  C7_dp_count_clamped 2097152

/-- Characterization of the allocation walk: if every allocation succeeds it
returns success with all buffers appended; otherwise it returns failure
holding exactly the successful prefix. -/
theorem prepareAllocGo_spec (ok : GpuBuf → Bool) (l : List GpuBuf) :
    ∀ acc : List GpuBuf,
      prepareAllocGo ok l acc =
        if l.all ok then (true, acc ++ l) else (false, acc ++ l.takeWhile ok) := by
  induction l with
  | nil => intro acc; simp [prepareAllocGo]
  | cons b rest ih =>
    intro acc
    by_cases hb : ok b
    · rw [prepareAllocGo, if_pos hb, ih]
      simp [hb, List.takeWhile_cons]
    · rw [prepareAllocGo, if_neg hb]
      simp [hb, List.takeWhile_cons, Bool.eq_false_iff.mpr hb]

/-- C8 counterexample: with a mock allocator failing on the second device
buffer (`DPs_out`), `Prepare` on a non-legacy device returns failure while
still holding the previously acquired `L2` buffer — the failure path of
`Prepare` (GpuKang.cpp 224-356) frees nothing, so a buffer acquired by the
failed `Prepare` is leaked by it, contrary to the claim. -/
theorem C8_counterexample :
    (prepareAllocRun (fun b => decide (b ≠ GpuBuf.DPsOut)) false).1 = false ∧
    (prepareAllocRun (fun b => decide (b ≠ GpuBuf.DPsOut)) false).2 = [GpuBuf.L2] ∧
    (prepareAllocRun (fun b => decide (b ≠ GpuBuf.DPsOut)) false).2 ≠ [] := by decide

/-- C8 (amended): if any device-memory allocation fails during `Prepare`, the
whole `Prepare` call aborts returning failure, but it releases none of the
buffers acquired before the failure — it still holds exactly the prefix of
the acquisition order that succeeded; only the separate `Release` routine
frees the buffers, and it does free them in exact reverse order of
acquisition, each exactly once. -/
theorem C8_prepare_abort_no_release (ok : GpuBuf → Bool) (IsOldGpu : Bool) (b : GpuBuf)
    (hb : b ∈ allocOrder IsOldGpu) (hfail : ok b = false) :
    (prepareAllocRun ok IsOldGpu).1 = false ∧
    (prepareAllocRun ok IsOldGpu).2 = (allocOrder IsOldGpu).takeWhile ok ∧
    releaseOrder IsOldGpu = (allocOrder IsOldGpu).reverse ∧
    (releaseOrder IsOldGpu).Nodup := by
  have hnall : (allocOrder IsOldGpu).all ok = false := by
    rw [List.all_eq_false]
    exact ⟨b, hb, by simp [hfail]⟩
  refine ⟨?_, ?_, ?_, ?_⟩
  · unfold prepareAllocRun
    rw [prepareAllocGo_spec, hnall]
    simp
  · unfold prepareAllocRun
    rw [prepareAllocGo_spec, hnall]
    simp
  · cases IsOldGpu <;> decide
  · cases IsOldGpu <;> decide

/-- C8 witness: the amended theorem at the mock allocator that fails on
`DPs_out` for a non-legacy device. -/
theorem C8_witness :
    (prepareAllocRun (fun c => decide (c ≠ GpuBuf.DPsOut)) false).1 = false ∧
    (prepareAllocRun (fun c => decide (c ≠ GpuBuf.DPsOut)) false).2 =
      (allocOrder false).takeWhile (fun c => decide (c ≠ GpuBuf.DPsOut)) ∧
    releaseOrder false = (allocOrder false).reverse ∧
    (releaseOrder false).Nodup :=
  C8_prepare_abort_no_release (fun c => decide (c ≠ GpuBuf.DPsOut)) false GpuBuf.DPsOut
    (by decide) (by decide)

/-- C9 counterexample: a worker whose `Start()` fails terminates `Execute`
immediately (incrementing the error counter) without passing through
`Release` — GpuKang.cpp 637-642 returns before the `Release()` call at line
787, contrary to the claim that every fatal error during `Start` still passes
through `Release`. -/
theorem C9_counterexample :
    (ExecuteRun true false []).releaseCalled = false ∧
    (ExecuteRun true false []).errors = 1 := by decide

/-- C9 (amended): `Execute` passes through `Release` exactly when both
`cudaSetDevice` and `Start` succeed: every exit of the iteration loop — the
stop flag as well as a fatal device error inside an iteration — falls through
to `Release`, but a failing `cudaSetDevice` or a failing `Start` returns
without releasing. -/
theorem C9_release_iff_started (setDeviceOk startOk : Bool) (iters : List Bool) :
    (ExecuteRun setDeviceOk startOk iters).releaseCalled = (setDeviceOk && startOk) := by
  cases setDeviceOk <;> cases startOk <;> simp [ExecuteRun]

/-- C9 witness: a started worker that hits a fatal error in its second
iteration still reaches `Release`. -/
theorem C9_witness :
    (ExecuteRun true true [true, false]).releaseCalled = (true && true) :=
  C9_release_iff_started true true [true, false]

/-! ## The rolling speed-sample ring (C6) -/

theorem recordAll_append (st : SpeedState) (l1 l2 : List Nat) :
    recordAll st (l1 ++ l2) = recordAll (recordAll st l1) l2 := by
  simp [recordAll]

theorem take_set_succ (buf : List Nat) (i s : Nat) (h : i < buf.length) :
    (buf.set i s).take (i + 1) = buf.take i ++ [s] := by
  have ht : (buf.take i).length = i := by rw [List.length_take]; omega
  rw [List.set_eq_take_cons_drop s h]
  calc (buf.take i ++ s :: buf.drop (i + 1)).take (i + 1)
      = (buf.take i ++ s :: buf.drop (i + 1)).take ((buf.take i).length + 1) := by rw [ht]
    _ = buf.take i ++ (s :: buf.drop (i + 1)).take 1 := List.take_append 1
    _ = buf.take i ++ [s] := by simp

/-- Recording `L.length` samples into the window without wrapping past slot 15
overwrites exactly the slots `i, …, i + L.length - 1`. -/
theorem recordAll_no_wrap (L : List Nat) :
    ∀ (buf : List Nat) (i : Nat), buf.length = 16 → i < 16 → i + L.length ≤ 16 →
      recordAll ⟨buf, i⟩ L =
        ⟨buf.take i ++ L ++ buf.drop (i + L.length), (i + L.length) % 16⟩ := by
  induction L with
  | nil =>
    intro buf i hlen hi _
    show (⟨buf, i⟩ : SpeedState) = _
    simp [Nat.mod_eq_of_lt hi]
  | cons s L ih =>
    intro buf i hlen hi hle
    have hlc : (s :: L).length = L.length + 1 := List.length_cons s L
    rw [hlc] at hle
    have hib : i < buf.length := by omega
    have hstep : recordAll ⟨buf, i⟩ (s :: L) =
        recordAll ⟨buf.set i s, (i + 1) % 16⟩ L := rfl
    rw [hstep]
    by_cases hi1 : i + 1 < 16
    · rw [Nat.mod_eq_of_lt hi1,
        ih (buf.set i s) (i + 1) (by rw [List.length_set]; exact hlen) hi1 (by omega)]
      rw [take_set_succ buf i s hib,
        List.drop_set_of_lt s buf (show i < i + 1 + L.length by omega)]
      have hidx : i + 1 + L.length = i + (s :: L).length := by rw [hlc]; omega
      rw [hidx]
      congr 1
      simp only [List.append_assoc, List.singleton_append, List.cons_append, List.nil_append]
    · have hL : L = [] := by
        cases L with
        | nil => rfl
        | cons a t => exfalso; simp only [List.length_cons] at hle; omega
      subst hL
      show (⟨buf.set i s, (i + 1) % 16⟩ : SpeedState) = _
      rw [List.set_eq_take_cons_drop s hib]
      congr 1
      all_goals simp

/-- Recording exactly 16 samples fully rotates the window: the final contents
are a rotation of the samples (so their sum is the samples' sum) and the write
index returns to its starting position. -/
theorem recordAll_rotation (L : List Nat) (buf : List Nat) (i : Nat)
    (hlen : buf.length = 16) (hi : i < 16) (hL : L.length = 16) :
    (recordAll ⟨buf, i⟩ L).stats.sum = L.sum ∧
    (recordAll ⟨buf, i⟩ L).stats.length = 16 ∧
    (recordAll ⟨buf, i⟩ L).ind = i := by
  have hsplit : L.take (16 - i) ++ L.drop (16 - i) = L := List.take_append_drop _ L
  have hlt : (L.take (16 - i)).length = 16 - i := by rw [List.length_take]; omega
  have hld : (L.drop (16 - i)).length = i := by rw [List.length_drop]; omega
  have h1 : recordAll ⟨buf, i⟩ (L.take (16 - i)) =
      ⟨buf.take i ++ L.take (16 - i) ++ buf.drop (i + (L.take (16 - i)).length),
        (i + (L.take (16 - i)).length) % 16⟩ :=
    recordAll_no_wrap _ buf i hlen hi (by omega)
  rw [hlt] at h1
  have h16 : i + (16 - i) = 16 := by omega
  rw [h16] at h1
  have hdrop16 : buf.drop 16 = [] := List.drop_eq_nil_of_le (by omega)
  rw [hdrop16, List.append_nil] at h1
  have hmid_len : (buf.take i ++ L.take (16 - i)).length = 16 := by
    rw [List.length_append, List.length_take, hlt]; omega
  have h2 : recordAll ⟨buf.take i ++ L.take (16 - i), 16 % 16⟩ (L.drop (16 - i)) =
      ⟨(buf.take i ++ L.take (16 - i)).take 0 ++ L.drop (16 - i) ++
          (buf.take i ++ L.take (16 - i)).drop (0 + (L.drop (16 - i)).length),
        (0 + (L.drop (16 - i)).length) % 16⟩ := by
    exact recordAll_no_wrap _ _ 0 hmid_len (by omega) (by omega)
  rw [hld] at h2
  have htk0 : (buf.take i ++ L.take (16 - i)).take 0 = [] := by simp
  have hdp : (buf.take i ++ L.take (16 - i)).drop (0 + i) = L.take (16 - i) := by
    rw [Nat.zero_add]
    exact List.drop_left' (by rw [List.length_take]; omega)
  rw [htk0, List.nil_append, hdp] at h2
  have hcomp : recordAll ⟨buf, i⟩ L = ⟨L.drop (16 - i) ++ L.take (16 - i), (0 + i) % 16⟩ := by
    calc recordAll ⟨buf, i⟩ L
        = recordAll ⟨buf, i⟩ (L.take (16 - i) ++ L.drop (16 - i)) := by rw [hsplit]
      _ = recordAll (recordAll ⟨buf, i⟩ (L.take (16 - i))) (L.drop (16 - i)) :=
          recordAll_append _ _ _
      _ = recordAll ⟨buf.take i ++ L.take (16 - i), 16 % 16⟩ (L.drop (16 - i)) := by rw [h1]
      _ = ⟨L.drop (16 - i) ++ L.take (16 - i), (0 + i) % 16⟩ := h2
  rw [hcomp]
  refine ⟨?_, ?_, ?_⟩
  · show (L.drop (16 - i) ++ L.take (16 - i)).sum = L.sum
    rw [List.sum_append, Nat.add_comm, ← List.sum_append, hsplit]
  · show (L.drop (16 - i) ++ L.take (16 - i)).length = 16
    rw [List.length_append, hld, hlt]; omega
  · show (0 + i) % 16 = i
    rw [Nat.zero_add, Nat.mod_eq_of_lt hi]

/-- After at least 16 recorded samples, the window's sum equals the sum of the
last 16 samples, regardless of the initial window contents. -/
theorem recordAll_last16 (L : List Nat) :
    ∀ (buf : List Nat) (i : Nat), buf.length = 16 → i < 16 → 16 ≤ L.length →
      (recordAll ⟨buf, i⟩ L).stats.sum = (L.drop (L.length - 16)).sum := by
  induction L with
  | nil => intro buf i _ _ h; simp at h
  | cons s L ih =>
    intro buf i hlen hi hge
    simp only [List.length_cons] at hge
    by_cases h16 : L.length + 1 = 16
    · have hfill := recordAll_rotation (s :: L) buf i hlen hi (by simp [h16])
      have hz : (s :: L).length - 16 = 0 := by simp only [List.length_cons]; omega
      rw [hz, List.drop_zero]
      exact hfill.1
    · have hstep : recordAll ⟨buf, i⟩ (s :: L) = recordAll ⟨buf.set i s, (i + 1) % 16⟩ L := rfl
      rw [hstep,
        ih (buf.set i s) ((i + 1) % 16) (by rw [List.length_set]; exact hlen)
          (Nat.mod_lt _ (by omega)) (by omega)]
      have hidx : (s :: L).length - 16 = (L.length - 16) + 1 := by
        simp only [List.length_cons]; omega
      rw [hidx, List.drop_succ_cons]

/-- C6: starting from the zeroed state `Prepare` leaves behind, after the
rolling buffer has been filled at least once (at least 16 recorded samples),
`GetStatsSpeed` returns exactly the arithmetic mean of the last 16 recorded
samples: their sum divided by 16 with truncating integer division. -/
theorem C6_speed_is_mean_of_last16 (L : List Nat) (h : 16 ≤ L.length) :
    GetStatsSpeed (recordAll initSpeedState L) = (L.drop (L.length - 16)).sum / 16 := by
  show (recordAll ⟨List.replicate 16 0, 0⟩ L).stats.sum / 16 = _
  rw [recordAll_last16 L (List.replicate 16 0) 0 (by simp) (by omega) h]

/-- C6 witness: twenty iterations with speeds 0,1,…,19 yield the truncated
mean of the last sixteen, (4+5+⋯+19)/16 = 184/16 = 11. -/
theorem C6_witness :
    GetStatsSpeed (recordAll initSpeedState (List.range 20)) =
      ((List.range 20).drop ((List.range 20).length - 16)).sum / 16 :=
  C6_speed_is_mean_of_last16 (List.range 20) (by simp)

end RCKangaroo
